import Mathlib

/-!
Verification of the three-stage SEO-audit workflow engine.

The development shallowly embeds the core of the repository:
* a JSON-like value type `JVal` standing for the Python dict/list/str/int
  values threaded through the pipeline (`src/agents.py`, `src/tools.py`);
* the Pydantic output contracts of `src/schemas.py` as Lean structures with
  executable validators and `model_dump` functions;
* `LlmAgent.run`, `run_with_retries` and the three workflow nodes of
  `src/agents.py`, with the LLM backend abstracted as an attempt-indexed
  `Except`-valued response (an `Except.error` models a raised exception,
  an `Except.ok` models returned response text);
* the langgraph `StateGraph` execution over `AgentState`.  None of the
  `Annotated` metadata strings in `AgentState` is callable, so langgraph
  attaches a last-value channel to every field: a key returned by a node
  replaces that channel's previous value.
-/

/-- JSON-like values: the Python data (dicts, lists, strings, ints, bools,
None) flowing through the workflow.  Floats do not occur in the modelled
code paths and are not modelled. -/
inductive JVal where
  | null : JVal
  | bool : Bool → JVal
  | num : Int → JVal
  | str : String → JVal
  | arr : List JVal → JVal
  | obj : List (String × JVal) → JVal

/-- A Python dict with string keys (association list; keys are unique in
every dict built by the modelled code). -/
abbrev JDict := List (String × JVal)

/-- Python `d[k]` / `k in d` for dicts: first matching key. -/
def dictGet : JDict → String → Option JVal
  | [], _ => none
  | (k', v) :: rest, k => if k' = k then some v else dictGet rest k

/-- Python `j.get(k)` on a dict value.  The modelled code only ever calls
`.get` on dict values; on non-dicts we return `none`. -/
def JVal.get (j : JVal) (k : String) : Option JVal :=
  match j with
  | JVal.obj d => dictGet d k
  | _ => none

/-- Python truthiness of a value (`bool(v)`). -/
def JVal.truthy : JVal → Bool
  | JVal.null => false
  | JVal.bool b => b
  | JVal.num n => decide (n ≠ 0)
  | JVal.str s => decide (s ≠ "")
  | JVal.arr xs => !xs.isEmpty
  | JVal.obj fs => !fs.isEmpty

/-- Python truthiness of `d.get(k)`: `None` (absent key) is falsy. -/
def optTruthy : Option JVal → Bool
  | none => false
  | some v => v.truthy

/-! ### Python string primitives

`str.replace` and `str.strip` re-implemented over `List Char` so that the
kernel can evaluate them on concrete inputs. -/

/-- One pass of Python `str.replace`: scan left to right, replacing every
non-overlapping occurrence of `pat` by `rep`.  `fuel` bounds recursion and
is always called with at least the length of the scanned list. -/
def replaceFuel : Nat → List Char → List Char → List Char → List Char
  | _, _, _, [] => []
  | 0, _, _, s => s
  | Nat.succ fuel, pat, rep, c :: cs =>
    if pat ≠ [] ∧ pat.isPrefixOf (c :: cs) then
      rep ++ replaceFuel fuel pat rep ((c :: cs).drop pat.length)
    else
      c :: replaceFuel fuel pat rep cs

/-- Python `s.replace(pat, rep)` (for non-empty `pat`). -/
def pyReplace (s pat rep : String) : String :=
  String.mk (replaceFuel s.data.length pat.data rep.data s.data)

/-- Characters stripped by Python `str.strip()` with no argument. -/
def isPySpace (c : Char) : Bool :=
  c = ' ' || c = '\t' || c = '\n' || c = '\r' || c = '\x0b' || c = '\x0c'

/-- Python `s.strip()`. -/
def pyStrip (s : String) : String :=
  String.mk (((s.data.dropWhile isPySpace).reverse.dropWhile isPySpace).reverse)

/-- `src/tools.py` line 218: the text cleaned before JSON parsing,
`output_text.replace("```json", "").replace("```", "").strip()`.
Note that `str.replace` replaces every occurrence, anywhere in the text. -/
def cleaned_text (output_text : String) : String :=
  pyStrip (pyReplace (pyReplace output_text "```json" "") "```" "")

/-! ### A JSON parser modelling `json.loads`

Fuel-indexed recursive-descent parser over `List Char`.  It covers the
JSON fragment produced and consumed by the modelled code: null, booleans,
integer numbers, strings with the common escapes, arrays and objects.
(Floats and `\u` escapes are outside the modelled fragment.) -/

/-- JSON whitespace. -/
def jsonWs (c : Char) : Bool :=
  c = ' ' || c = '\t' || c = '\n' || c = '\r'

/-- Decode one escape character after a backslash. -/
def escChar (e : Char) : Option Char :=
  if e = 'n' then some '\n'
  else if e = 't' then some '\t'
  else if e = 'r' then some '\r'
  else if e = 'b' then some '\x08'
  else if e = 'f' then some '\x0c'
  else if e = '"' || e = '\\' || e = '/' then some e
  else none

/-- Parse the body of a JSON string after the opening quote; returns the
decoded content and the input after the closing quote. -/
def parseStringBody : Nat → List Char → Option (List Char × List Char)
  | _, [] => none
  | 0, _ => none
  | Nat.succ fuel, c :: cs =>
    if c = '"' then some ([], cs)
    else if c = '\\' then
      match cs with
      | [] => none
      | e :: cs' =>
        match escChar e with
        | none => none
        | some d =>
          match parseStringBody fuel cs' with
          | none => none
          | some (body, rest) => some (d :: body, rest)
    else
      match parseStringBody fuel cs with
      | none => none
      | some (body, rest) => some (c :: body, rest)

/-- Parse a run of decimal digits. -/
def parseDigits : List Char → Option (Nat × List Char)
  | c :: cs =>
    if c.isDigit then
      match parseDigits cs with
      | some (n, rest) => some ((c.toNat - '0'.toNat) * 10 ^ (digitsLen cs) + n, rest)
      | none => some (c.toNat - '0'.toNat, cs)
    else none
  | [] => none
where
  /-- Number of leading digits. -/
  digitsLen : List Char → Nat
    | c :: cs => if c.isDigit then digitsLen cs + 1 else 0
    | [] => 0

mutual

/-- Parse one JSON value (after skipping leading whitespace). -/
def parseVal : Nat → List Char → Option (JVal × List Char)
  | 0, _ => none
  | Nat.succ fuel, cs =>
    match cs.dropWhile jsonWs with
    | [] => none
    | c :: rest =>
      if c = 'n' then
        if ['u', 'l', 'l'].isPrefixOf rest then some (JVal.null, rest.drop 3) else none
      else if c = 't' then
        if ['r', 'u', 'e'].isPrefixOf rest then some (JVal.bool true, rest.drop 3) else none
      else if c = 'f' then
        if ['a', 'l', 's', 'e'].isPrefixOf rest then some (JVal.bool false, rest.drop 4)
        else none
      else if c = '"' then
        match parseStringBody (rest.length + 1) rest with
        | none => none
        | some (body, rest') => some (JVal.str (String.mk body), rest')
      else if c = '-' then
        match parseDigits rest with
        | none => none
        | some (n, rest') => some (JVal.num (-(Int.ofNat n)), rest')
      else if c.isDigit then
        match parseDigits (c :: rest) with
        | none => none
        | some (n, rest') => some (JVal.num (Int.ofNat n), rest')
      else if c = '\x5b' then
        match (rest.dropWhile jsonWs) with
        | ']' :: rest' => some (JVal.arr [], rest')
        | _ =>
          match parseArrElems fuel rest with
          | none => none
          | some (xs, rest') => some (JVal.arr xs, rest')
      else if c = '\x7b' then
        match (rest.dropWhile jsonWs) with
        | '\x7d' :: rest' => some (JVal.obj [], rest')
        | _ =>
          match parseObjMembers fuel rest with
          | none => none
          | some (fields, rest') => some (JVal.obj fields, rest')
      else none

/-- Parse the elements of a non-empty JSON array, up to and including the
closing bracket. -/
def parseArrElems : Nat → List Char → Option (List JVal × List Char)
  | 0, _ => none
  | Nat.succ fuel, cs =>
    match parseVal fuel cs with
    | none => none
    | some (v, rest) =>
      match rest.dropWhile jsonWs with
      | ',' :: rest' =>
        match parseArrElems fuel rest' with
        | none => none
        | some (vs, rest'') => some (v :: vs, rest'')
      | ']' :: rest' => some ([v], rest')
      | _ => none

/-- Parse the members of a non-empty JSON object, up to and including the
closing brace. -/
def parseObjMembers : Nat → List Char → Option (JDict × List Char)
  | 0, _ => none
  | Nat.succ fuel, cs =>
    match cs.dropWhile jsonWs with
    | '"' :: afterQuote =>
      match parseStringBody (afterQuote.length + 1) afterQuote with
      | none => none
      | some (key, afterKey) =>
        match afterKey.dropWhile jsonWs with
        | ':' :: afterColon =>
          match parseVal fuel afterColon with
          | none => none
          | some (v, rest) =>
            match rest.dropWhile jsonWs with
            | ',' :: rest' =>
              match parseObjMembers fuel rest' with
              | none => none
              | some (fields, rest'') => some ((String.mk key, v) :: fields, rest'')
            | '\x7d' :: rest' => some ([(String.mk key, v)], rest')
            | _ => none
        | _ => none
    | _ => none

end

/-- `json.loads`: parse a complete JSON document, rejecting trailing
content. -/
def json_loads (s : String) : Option JVal :=
  match parseVal (2 * s.data.length + 8) s.data with
  | none => none
  | some (v, rest) => if (rest.dropWhile jsonWs).isEmpty then some v else none

/-! ### Output contracts (`src/schemas.py`)

Each Pydantic model becomes a Lean structure, an executable validator
(`SchemaName(**json_data)`: required fields must be present with the right
type; optional fields default to `None` / `[]` when absent; unknown keys
are ignored) and a `model_dump` back to a dict. -/

structure HeadingItem where
  tag : String
  text : String
deriving DecidableEq, Repr

structure LinkCounts where
  internal : Option Int
  external : Option Int
  broken : Option Int
  notes : Option String
deriving DecidableEq, Repr

structure AuditResults where
  title_tag : String
  meta_description : String
  primary_heading : String
  secondary_headings : List HeadingItem
  word_count : Option Int
  content_summary : String
  link_counts : LinkCounts
  technical_findings : List String
  content_opportunities : List String
deriving DecidableEq, Repr

structure TargetKeywords where
  primary_keyword : String
  secondary_keywords : List String
  search_intent : String
  supporting_topics : List String
deriving DecidableEq, Repr

structure PageAuditOutput where
  audit_results : AuditResults
  target_keywords : TargetKeywords
deriving DecidableEq, Repr

structure SerpResult where
  rank : Int
  title : String
  url : String
  snippet : String
  content_type : String
deriving DecidableEq, Repr

structure SerpAnalysis where
  primary_keyword : String
  top_10_results : List SerpResult
  title_patterns : List String
  content_formats : List String
  people_also_ask : List String
  key_themes : List String
  differentiation_opportunities : List String
deriving DecidableEq, Repr

/-- Explicit `Except` sequencing used by the validators (fail on the first
field error, as `pydantic` reports a `ValidationError`). -/
def exBind {α β : Type} (x : Except String α) (f : α → Except String β) : Except String β :=
  match x with
  | Except.error e => Except.error e
  | Except.ok a => f a

/-- A required `str` field (`Field(...)`). -/
def vReqStr : Option JVal → Except String String
  | some (JVal.str s) => Except.ok s
  | some _ => Except.error "value is not a valid string"
  | none => Except.error "Field required"

/-- A required `int` field (`Field(...)`). -/
def vReqInt : Option JVal → Except String Int
  | some (JVal.num n) => Except.ok n
  | some _ => Except.error "value is not a valid integer"
  | none => Except.error "Field required"

/-- An `Optional[int] = Field(None)` field: absent or null becomes `None`. -/
def vOptInt : Option JVal → Except String (Option Int)
  | none => Except.ok none
  | some JVal.null => Except.ok none
  | some (JVal.num n) => Except.ok (some n)
  | some _ => Except.error "value is not a valid integer"

/-- An `Optional[str] = Field(None)` field. -/
def vOptStr : Option JVal → Except String (Option String)
  | none => Except.ok none
  | some JVal.null => Except.ok none
  | some (JVal.str s) => Except.ok (some s)
  | some _ => Except.error "value is not a valid string"

/-- A list element that must be a string. -/
def vStrElem : JVal → Except String String
  | JVal.str s => Except.ok s
  | _ => Except.error "value is not a valid string"

/-- Validate the elements of a `List[str]` field. -/
def vStrElems : List JVal → Except String (List String)
  | [] => Except.ok []
  | j :: rest =>
      exBind (vStrElem j) fun s =>
      exBind (vStrElems rest) fun ss =>
      Except.ok (s :: ss)

/-- A `List[str]` field with `default_factory=list`: absent becomes `[]`. -/
def vStrList : Option JVal → Except String (List String)
  | none => Except.ok []
  | some (JVal.arr xs) => vStrElems xs
  | some _ => Except.error "value is not a valid list"

/-- `HeadingItem(**d)`. -/
def validateHeadingItem : JVal → Except String HeadingItem
  | JVal.obj d =>
      exBind (vReqStr (dictGet d "tag")) fun tag =>
      exBind (vReqStr (dictGet d "text")) fun text =>
      Except.ok { tag := tag, text := text }
  | _ => Except.error "value is not a valid dictionary"

/-- Validate the elements of a `List[HeadingItem]` field. -/
def vHeadingElems : List JVal → Except String (List HeadingItem)
  | [] => Except.ok []
  | j :: rest =>
      exBind (validateHeadingItem j) fun h =>
      exBind (vHeadingElems rest) fun hs =>
      Except.ok (h :: hs)

/-- A `List[HeadingItem]` field with `default_factory=list`. -/
def vHeadingList : Option JVal → Except String (List HeadingItem)
  | none => Except.ok []
  | some (JVal.arr xs) => vHeadingElems xs
  | some _ => Except.error "value is not a valid list"

/-- `LinkCounts(**d)`. -/
def validateLinkCounts : JVal → Except String LinkCounts
  | JVal.obj d =>
      exBind (vOptInt (dictGet d "internal")) fun internal =>
      exBind (vOptInt (dictGet d "external")) fun ext =>
      exBind (vOptInt (dictGet d "broken")) fun broken =>
      exBind (vOptStr (dictGet d "notes")) fun notes =>
      Except.ok { internal := internal, external := ext, broken := broken, notes := notes }
  | _ => Except.error "value is not a valid dictionary"

/-- `AuditResults(**d)`. -/
def validateAuditResults : JVal → Except String AuditResults
  | JVal.obj d =>
      exBind (vReqStr (dictGet d "title_tag")) fun title_tag =>
      exBind (vReqStr (dictGet d "meta_description")) fun meta_description =>
      exBind (vReqStr (dictGet d "primary_heading")) fun primary_heading =>
      exBind (vHeadingList (dictGet d "secondary_headings")) fun secondary_headings =>
      exBind (vOptInt (dictGet d "word_count")) fun word_count =>
      exBind (vReqStr (dictGet d "content_summary")) fun content_summary =>
      exBind (match dictGet d "link_counts" with
              | some j => validateLinkCounts j
              | none => Except.error "Field required") fun link_counts =>
      exBind (vStrList (dictGet d "technical_findings")) fun technical_findings =>
      exBind (vStrList (dictGet d "content_opportunities")) fun content_opportunities =>
      Except.ok { title_tag := title_tag, meta_description := meta_description,
                  primary_heading := primary_heading,
                  secondary_headings := secondary_headings, word_count := word_count,
                  content_summary := content_summary, link_counts := link_counts,
                  technical_findings := technical_findings,
                  content_opportunities := content_opportunities }
  | _ => Except.error "value is not a valid dictionary"

/-- `TargetKeywords(**d)`. -/
def validateTargetKeywords : JVal → Except String TargetKeywords
  | JVal.obj d =>
      exBind (vReqStr (dictGet d "primary_keyword")) fun primary_keyword =>
      exBind (vStrList (dictGet d "secondary_keywords")) fun secondary_keywords =>
      exBind (vReqStr (dictGet d "search_intent")) fun search_intent =>
      exBind (vStrList (dictGet d "supporting_topics")) fun supporting_topics =>
      Except.ok { primary_keyword := primary_keyword,
                  secondary_keywords := secondary_keywords,
                  search_intent := search_intent, supporting_topics := supporting_topics }
  | _ => Except.error "value is not a valid dictionary"

/-- `PageAuditOutput(**json_data)`. -/
def validatePageAuditOutput : JVal → Except String PageAuditOutput
  | JVal.obj d =>
      exBind (match dictGet d "audit_results" with
              | some j => validateAuditResults j
              | none => Except.error "Field required") fun audit_results =>
      exBind (match dictGet d "target_keywords" with
              | some j => validateTargetKeywords j
              | none => Except.error "Field required") fun target_keywords =>
      Except.ok { audit_results := audit_results, target_keywords := target_keywords }
  | _ => Except.error "value is not a valid dictionary"

/-- `SerpResult(**d)`. -/
def validateSerpResult : JVal → Except String SerpResult
  | JVal.obj d =>
      exBind (vReqInt (dictGet d "rank")) fun rank =>
      exBind (vReqStr (dictGet d "title")) fun title =>
      exBind (vReqStr (dictGet d "url")) fun url =>
      exBind (vReqStr (dictGet d "snippet")) fun snippet =>
      exBind (vReqStr (dictGet d "content_type")) fun content_type =>
      Except.ok { rank := rank, title := title, url := url, snippet := snippet,
                  content_type := content_type }
  | _ => Except.error "value is not a valid dictionary"

/-- Validate the elements of the required `List[SerpResult]` field. -/
def vSerpElems : List JVal → Except String (List SerpResult)
  | [] => Except.ok []
  | j :: rest =>
      exBind (validateSerpResult j) fun r =>
      exBind (vSerpElems rest) fun rs =>
      Except.ok (r :: rs)

/-- `SerpAnalysis(**json_data)`. -/
def validateSerpAnalysis : JVal → Except String SerpAnalysis
  | JVal.obj d =>
      exBind (vReqStr (dictGet d "primary_keyword")) fun primary_keyword =>
      exBind (match dictGet d "top_10_results" with
              | some (JVal.arr xs) => vSerpElems xs
              | some _ => Except.error "value is not a valid list"
              | none => Except.error "Field required") fun top_10_results =>
      exBind (vStrList (dictGet d "title_patterns")) fun title_patterns =>
      exBind (vStrList (dictGet d "content_formats")) fun content_formats =>
      exBind (vStrList (dictGet d "people_also_ask")) fun people_also_ask =>
      exBind (vStrList (dictGet d "key_themes")) fun key_themes =>
      exBind (vStrList (dictGet d "differentiation_opportunities"))
        fun differentiation_opportunities =>
      Except.ok { primary_keyword := primary_keyword, top_10_results := top_10_results,
                  title_patterns := title_patterns, content_formats := content_formats,
                  people_also_ask := people_also_ask, key_themes := key_themes,
                  differentiation_opportunities := differentiation_opportunities }
  | _ => Except.error "value is not a valid dictionary"

/-- Dump of an optional int (`None` dumps as null). -/
def optIntDump : Option Int → JVal
  | none => JVal.null
  | some n => JVal.num n

/-- Dump of an optional string. -/
def optStrDump : Option String → JVal
  | none => JVal.null
  | some s => JVal.str s

/-- `HeadingItem.model_dump()`. -/
def HeadingItem.model_dump (h : HeadingItem) : JDict :=
  [("tag", JVal.str h.tag), ("text", JVal.str h.text)]

/-- `LinkCounts.model_dump()`. -/
def LinkCounts.model_dump (lc : LinkCounts) : JDict :=
  [("internal", optIntDump lc.internal), ("external", optIntDump lc.external),
   ("broken", optIntDump lc.broken), ("notes", optStrDump lc.notes)]

/-- `AuditResults.model_dump()`. -/
def AuditResults.model_dump (a : AuditResults) : JDict :=
  [("title_tag", JVal.str a.title_tag),
   ("meta_description", JVal.str a.meta_description),
   ("primary_heading", JVal.str a.primary_heading),
   ("secondary_headings", JVal.arr (a.secondary_headings.map
      (fun h => JVal.obj h.model_dump))),
   ("word_count", optIntDump a.word_count),
   ("content_summary", JVal.str a.content_summary),
   ("link_counts", JVal.obj a.link_counts.model_dump),
   ("technical_findings", JVal.arr (a.technical_findings.map JVal.str)),
   ("content_opportunities", JVal.arr (a.content_opportunities.map JVal.str))]

/-- `TargetKeywords.model_dump()`. -/
def TargetKeywords.model_dump (t : TargetKeywords) : JDict :=
  [("primary_keyword", JVal.str t.primary_keyword),
   ("secondary_keywords", JVal.arr (t.secondary_keywords.map JVal.str)),
   ("search_intent", JVal.str t.search_intent),
   ("supporting_topics", JVal.arr (t.supporting_topics.map JVal.str))]

/-- `PageAuditOutput.model_dump()`. -/
def PageAuditOutput.model_dump (p : PageAuditOutput) : JDict :=
  [("audit_results", JVal.obj p.audit_results.model_dump),
   ("target_keywords", JVal.obj p.target_keywords.model_dump)]

/-- `SerpResult.model_dump()`. -/
def SerpResult.model_dump (r : SerpResult) : JDict :=
  [("rank", JVal.num r.rank), ("title", JVal.str r.title), ("url", JVal.str r.url),
   ("snippet", JVal.str r.snippet), ("content_type", JVal.str r.content_type)]

/-- `SerpAnalysis.model_dump()`. -/
def SerpAnalysis.model_dump (s : SerpAnalysis) : JDict :=
  [("primary_keyword", JVal.str s.primary_keyword),
   ("top_10_results", JVal.arr (s.top_10_results.map (fun r => JVal.obj r.model_dump))),
   ("title_patterns", JVal.arr (s.title_patterns.map JVal.str)),
   ("content_formats", JVal.arr (s.content_formats.map JVal.str)),
   ("people_also_ask", JVal.arr (s.people_also_ask.map JVal.str)),
   ("key_themes", JVal.arr (s.key_themes.map JVal.str)),
   ("differentiation_opportunities",
    JVal.arr (s.differentiation_opportunities.map JVal.str))]

/-! ### The Analysis Unit (`LlmAgent`, `src/tools.py` lines 136-234)

Only the fields that shape `run`'s data flow are modelled.  The prompt and
model name only influence the backend's response text, which is abstracted
as `backend : Except String String` (`Except.error e` models the
Groq/Gemini call raising an exception `e`, caught at `src/tools.py`
lines 203-205 and 212-214; `Except.ok t` models response text `t`). -/

structure LlmAgent where
  name : String
  /-- The bound Pydantic contract, as combined validation + `model_dump`. -/
  output_schema : Option (JVal → Except String JDict)
  output_key : Option String

/-- `LlmAgent.run` (`src/tools.py` lines 188-234): the common
parse/validate tail after the backend call.  A total function — every
backend or validation failure is caught and returned as a dict. -/
def LlmAgent.run (self : LlmAgent) (backend : Except String String) : JDict :=
  match backend with
  | Except.error e => [("error", JVal.str e)]
  | Except.ok output_text =>
    match self.output_schema with
    | some validate =>
      match json_loads (cleaned_text output_text) with
      | none => [("error", JVal.str "Failed to parse JSON"),
                 ("raw_output", JVal.str output_text)]
      | some json_data =>
        match validate json_data with
        | Except.error e => [("error", JVal.str e), ("raw_output", JVal.str output_text)]
        | Except.ok dumped =>
          match self.output_key with
          | some k => [(k, JVal.obj dumped)]
          | none => dumped
    | none =>
      match self.output_key with
      | some k => [(k, JVal.str output_text)]
      | none => [("output", JVal.str output_text)]

/-- Validation + dump bound to `PageAuditorAgent` (`output_schema=PageAuditOutput`). -/
def validate_page_audit (j : JVal) : Except String JDict :=
  (validatePageAuditOutput j).map PageAuditOutput.model_dump

/-- Validation + dump bound to `SerpAnalystAgent` (`output_schema=SerpAnalysis`). -/
def validate_serp_analysis (j : JVal) : Except String JDict :=
  (validateSerpAnalysis j).map SerpAnalysis.model_dump

/-- `page_auditor_agent` (`src/agents.py` lines 30-38). -/
def page_auditor_agent : LlmAgent :=
  { name := "PageAuditorAgent", output_schema := some validate_page_audit,
    output_key := some "page_audit" }

/-- `serp_analyst_agent` (`src/agents.py` lines 40-48). -/
def serp_analyst_agent : LlmAgent :=
  { name := "SerpAnalystAgent", output_schema := some validate_serp_analysis,
    output_key := some "serp_analysis" }

/-- `optimization_advisor_agent` (`src/agents.py` lines 50-57): no output
schema, `output_key="report"`. -/
def optimization_advisor_agent : LlmAgent :=
  { name := "OptimizationAdvisorAgent", output_schema := none,
    output_key := some "report" }

/-! ### The Resilient Invocation Wrapper (`run_with_retries`,
`src/tools.py` lines 286-304)

tenacity policy: `stop_after_attempt(3)`,
`retry_if_exception_type(Exception)` (every exception retries),
`reraise=True` (the last exception is re-raised after logging).  The
wrapped callable is modelled attempt-indexed (`f n` is the outcome of the
`n`-th call); the wrapper returns its result together with the number of
calls made, so that retry bounds are stated directly. -/

def run_with_retries {α : Type} (f : Nat → Except String α) : Except String α × Nat :=
  match f 0 with
  | Except.ok a => (Except.ok a, 1)
  | Except.error _ =>
    match f 1 with
    | Except.ok a => (Except.ok a, 2)
    | Except.error _ =>
      match f 2 with
      | Except.ok a => (Except.ok a, 3)
      | Except.error e => (Except.error e, 3)

/-! ### Workflow nodes (`src/agents.py` lines 61-112)

Each node body is `try: result = run_with_retries(...); if "error" in
result: return errors-entry; return result; except: return errors-entry`.
The `except` branch catches what `run_with_retries` re-raises.  The second
component counts the calls made to the wrapped function. -/

/-- Python `f"{v}"` on the values stored under `"error"` (always strings
in this codebase). -/
def fstr : JVal → String
  | JVal.str s => s
  | JVal.null => "None"
  | JVal.bool true => "True"
  | JVal.bool false => "False"
  | JVal.num n => toString n
  | _ => "<object>"

/-- The shared node body around a wrapped callable returning a dict. -/
def node_step (tag : String) (f : Nat → Except String JDict) : JDict × Nat :=
  match run_with_retries f with
  | (Except.ok result, n) =>
    match dictGet result "error" with
    | some v => ([("errors", JVal.arr [JVal.str (tag ++ " Error: " ++ fstr v)])], n)
    | none => (result, n)
  | (Except.error e, n) =>
    ([("errors", JVal.arr [JVal.str (tag ++ " Exception: " ++ e)])], n)

/-- The shared workflow state (`AgentState`, `src/agents.py` lines 9-14).
Both entry points (`src/main.py` lines 22-28, `src/app.py` lines 133-139)
invoke the graph with every field initialised, so channels always hold a
value. -/
structure AgentState where
  url : JVal
  page_audit : JVal
  serp_analysis : JVal
  report : JVal
  errors : JVal

/-- The initial state built by `src/main.py` lines 22-28 /
`src/app.py` lines 133-139. -/
def initState (url : String) : AgentState :=
  { url := JVal.str url, page_audit := JVal.obj [], serp_analysis := JVal.obj [],
    report := JVal.str "", errors := JVal.arr [] }

/-- langgraph's merge of a node's returned partial update into the state.
None of the `Annotated` metadata in `AgentState` is a callable reducer
(they are doc strings such as `"Accumulate errors"`), so langgraph binds
every field to a last-value channel: a key present in the update replaces
the channel's value, keys not present leave it unchanged. -/
def applyUpdate (st : AgentState) (upd : JDict) : AgentState :=
  { url := (dictGet upd "url").getD st.url,
    page_audit := (dictGet upd "page_audit").getD st.page_audit,
    serp_analysis := (dictGet upd "serp_analysis").getD st.serp_analysis,
    report := (dictGet upd "report").getD st.report,
    errors := (dictGet upd "errors").getD st.errors }

/-- `page_auditor_node` (`src/agents.py` lines 61-74), generic in the
wrapped callable (the node reads only `state["url"]`, which feeds the
agent's input payload and is folded into `f`). -/
def page_auditor_node (f : Nat → Except String JDict) : JDict × Nat :=
  node_step "PageAuditor" f

/-- `serp_analyst_node` (`src/agents.py` lines 76-95): inspects
`page_audit.target_keywords.primary_keyword` and short-circuits without
any adapter call when it is falsy (absent, `None` or empty). -/
def serp_analyst_node (st : AgentState) (f : Nat → Except String JDict) : JDict × Nat :=
  let audit_data := st.page_audit
  let primary_keyword :=
    ((audit_data.get "target_keywords").getD (JVal.obj [])).get "primary_keyword"
  if optTruthy primary_keyword = false then
    ([("serp_analysis", JVal.obj [("error", JVal.str "No primary keyword found")])], 0)
  else
    node_step "SerpAnalyst" f

/-- `optimization_advisor_node` (`src/agents.py` lines 97-112); the state
fields it reads feed the agent input and are folded into `f`. -/
def optimization_advisor_node (f : Nat → Except String JDict) : JDict × Nat :=
  node_step "Advisor" f

/-- The compiled graph run to completion (`workflow`, `src/agents.py`
lines 116-137): entry point `page_auditor`, unconditional edges
`page_auditor → serp_analyst → optimization_advisor → END`, each node's
update merged by `applyUpdate`. -/
def runWorkflow (url : String) (f1 f2 f3 : Nat → Except String JDict) : AgentState :=
  let s0 := initState url
  let s1 := applyUpdate s0 (page_auditor_node f1).1
  let s2 := applyUpdate s1 (serp_analyst_node s1 f2).1
  let s3 := applyUpdate s2 (optimization_advisor_node f3).1
  s3

/-- `page_auditor_node` with its agent bound:
`run_with_retries(page_auditor_agent.run, {"url": state["url"]})`.
`b n` is the backend outcome of the `n`-th attempt. -/
def page_auditor_node_b (b : Nat → Except String String) : JDict × Nat :=
  page_auditor_node (fun n => Except.ok (page_auditor_agent.run (b n)))

/-- `serp_analyst_node` with its agent bound. -/
def serp_analyst_node_b (st : AgentState) (b : Nat → Except String String) : JDict × Nat :=
  serp_analyst_node st (fun n => Except.ok (serp_analyst_agent.run (b n)))

/-- `optimization_advisor_node` with its agent bound. -/
def optimization_advisor_node_b (b : Nat → Except String String) : JDict × Nat :=
  optimization_advisor_node (fun n => Except.ok (optimization_advisor_agent.run (b n)))

/-- A full run of the compiled graph with the three agents bound
(`seo_audit_graph.invoke(initial_state)`). -/
def runAudit (url : String) (b1 b2 b3 : Nat → Except String String) : AgentState :=
  let s0 := initState url
  let s1 := applyUpdate s0 (page_auditor_node_b b1).1
  let s2 := applyUpdate s1 (serp_analyst_node_b s1 b2).1
  let s3 := applyUpdate s2 (optimization_advisor_node_b b3).1
  s3

/-! ### Auxiliary string functions used in statements -/

/-- Does `pat` occur as a contiguous sublist? -/
def listContainsSub (pat : List Char) : List Char → Bool
  | [] => pat.isEmpty
  | c :: rest => pat.isPrefixOf (c :: rest) || listContainsSub pat rest

/-- Python `pat in s` for strings. -/
def strContains (s pat : String) : Bool := listContainsSub pat.data s.data

/-- `pre.data` starts `s.data`. -/
def strStartsWith (s pre : String) : Bool := pre.data.isPrefixOf s.data

/-- Drop the first `n` characters. -/
def strDrop (s : String) (n : Nat) : String := String.mk (s.data.drop n)

/-- `suf.data` ends `s.data`. -/
def strEndsWith (s suf : String) : Bool := suf.data.reverse.isPrefixOf s.data.reverse

/-- Drop the last `n` characters. -/
def strDropEnd (s : String) (n : Nat) : String := String.mk ((s.data.reverse.drop n).reverse)

/-- Modelled from the spec: "strip surrounding code-fence markers if
present" — removes one leading fence marker and one trailing one, touching
nothing inside the document.  Defined only to compare the spec's wording
with the implementation's `cleaned_text`, which replaces every occurrence. -/
def strip_surrounding_fences (s : String) : String :=
  let t := pyStrip s
  let t1 := if strStartsWith t "```json" then strDrop t 7
            else if strStartsWith t "```" then strDrop t 3 else t
  let t2 := if strEndsWith t1 "```" then strDropEnd t1 3 else t1
  pyStrip t2

/-- Modelled from the spec (amended per the counterexample): given raw
text, (a) remove every occurrence of the code-fence markers and trim,
(b) parse the remainder as JSON, (c) validate field-by-field against the
bound contract; failures carry the original raw text. -/
def validation_pipeline (validate : JVal → Except String JDict) (key : Option String)
    (output_text : String) : JDict :=
  match json_loads (cleaned_text output_text) with
  | none => [("error", JVal.str "Failed to parse JSON"),
             ("raw_output", JVal.str output_text)]
  | some json_data =>
    match validate json_data with
    | Except.error e => [("error", JVal.str e), ("raw_output", JVal.str output_text)]
    | Except.ok dumped =>
      match key with
      | some k => [(k, JVal.obj dumped)]
      | none => dumped

/-! ### Claim C6: well-formed documents validate without data loss

`wf…` predicates state, independently of the validators, that a JSON
document satisfies the page-audit contract of `src/schemas.py`: required
fields present with the declared type, optional fields (if present) of the
declared type.  Extra keys are allowed (Pydantic ignores unknown keys). -/

/-- A required `str` field is present as a string. -/
def wfReqStr : Option JVal → Bool
  | some (JVal.str _) => true
  | _ => false

/-- An `Optional[int]` field is absent, null or an integer. -/
def wfOptInt : Option JVal → Bool
  | none => true
  | some JVal.null => true
  | some (JVal.num _) => true
  | _ => false

/-- An `Optional[str]` field is absent, null or a string. -/
def wfOptStr : Option JVal → Bool
  | none => true
  | some JVal.null => true
  | some (JVal.str _) => true
  | _ => false

/-- A value is a JSON string. -/
def isStrV : JVal → Bool
  | JVal.str _ => true
  | _ => false

/-- A `List[str]` field with list default is absent or a list of strings. -/
def wfStrList : Option JVal → Bool
  | none => true
  | some (JVal.arr xs) => xs.all isStrV
  | some _ => false

/-- A document satisfying the `HeadingItem` contract. -/
def wfHeadingItem : JVal → Bool
  | JVal.obj d => wfReqStr (dictGet d "tag") && wfReqStr (dictGet d "text")
  | _ => false

/-- A `List[HeadingItem]` field with list default. -/
def wfHeadingList : Option JVal → Bool
  | none => true
  | some (JVal.arr xs) => xs.all wfHeadingItem
  | some _ => false

/-- A document satisfying the `LinkCounts` contract. -/
def wfLinkCounts : JVal → Bool
  | JVal.obj d =>
      wfOptInt (dictGet d "internal") && wfOptInt (dictGet d "external") &&
      wfOptInt (dictGet d "broken") && wfOptStr (dictGet d "notes")
  | _ => false

/-- A document satisfying the `AuditResults` contract. -/
def wfAuditResults : JVal → Bool
  | JVal.obj d =>
      wfReqStr (dictGet d "title_tag") && wfReqStr (dictGet d "meta_description") &&
      wfReqStr (dictGet d "primary_heading") &&
      wfHeadingList (dictGet d "secondary_headings") &&
      wfOptInt (dictGet d "word_count") && wfReqStr (dictGet d "content_summary") &&
      (match dictGet d "link_counts" with
       | some j => wfLinkCounts j
       | none => false) &&
      wfStrList (dictGet d "technical_findings") &&
      wfStrList (dictGet d "content_opportunities")
  | _ => false

/-- A document satisfying the `TargetKeywords` contract. -/
def wfTargetKeywords : JVal → Bool
  | JVal.obj d =>
      wfReqStr (dictGet d "primary_keyword") && wfStrList (dictGet d "secondary_keywords") &&
      wfReqStr (dictGet d "search_intent") && wfStrList (dictGet d "supporting_topics")
  | _ => false

/-- A document satisfying the `PageAuditOutput` contract. -/
def wfPageAuditOutput : JVal → Bool
  | JVal.obj d =>
      (match dictGet d "audit_results" with
       | some j => wfAuditResults j
       | none => false) &&
      (match dictGet d "target_keywords" with
       | some j => wfTargetKeywords j
       | none => false)
  | _ => false

/-- Omitted optional `LinkCounts` fields are defaulted to `None`. -/
def lc_defaults (jl : JVal) (lc : LinkCounts) : Prop :=
  (jl.get "internal" = none → lc.internal = none) ∧
  (jl.get "external" = none → lc.external = none) ∧
  (jl.get "broken" = none → lc.broken = none) ∧
  (jl.get "notes" = none → lc.notes = none)

/-- The validated `AuditResults` record keeps every required field's value
from the document and defaults every omitted optional field. -/
def audit_contract (ja : JVal) (a : AuditResults) : Prop :=
  ja.get "title_tag" = some (JVal.str a.title_tag) ∧
  ja.get "meta_description" = some (JVal.str a.meta_description) ∧
  ja.get "primary_heading" = some (JVal.str a.primary_heading) ∧
  ja.get "content_summary" = some (JVal.str a.content_summary) ∧
  (∃ jl, ja.get "link_counts" = some jl ∧ lc_defaults jl a.link_counts) ∧
  (ja.get "secondary_headings" = none → a.secondary_headings = []) ∧
  (ja.get "word_count" = none → a.word_count = none) ∧
  (ja.get "technical_findings" = none → a.technical_findings = []) ∧
  (ja.get "content_opportunities" = none → a.content_opportunities = [])

/-- The validated `TargetKeywords` record keeps required values and
defaults omitted optional fields. -/
def tk_contract (jt : JVal) (t : TargetKeywords) : Prop :=
  jt.get "primary_keyword" = some (JVal.str t.primary_keyword) ∧
  jt.get "search_intent" = some (JVal.str t.search_intent) ∧
  (jt.get "secondary_keywords" = none → t.secondary_keywords = []) ∧
  (jt.get "supporting_topics" = none → t.supporting_topics = [])

/-- The whole page-audit record: no required-field data is lost, omitted
optional fields get their documented defaults. -/
def pageaudit_contract (j : JVal) (r : PageAuditOutput) : Prop :=
  (∃ ja, j.get "audit_results" = some ja ∧ audit_contract ja r.audit_results) ∧
  (∃ jt, j.get "target_keywords" = some jt ∧ tk_contract jt r.target_keywords)

/-- The always-raising wrapped callable used to witness C5. -/
def c5f : Nat → Except String JDict := fun _ => Except.error "boom"

/-- A model output whose JSON string content contains a code fence. -/
def c8bad : String := "\x7b\"a\": \"x```y\"\x7d"

/-- Stage-1 backend for the C1 run: the model returns non-JSON text, a
data error. -/
def c1_b1 : Nat → Except String String := fun _ => Except.ok "not json"

/-- Stage-2 backend for the C1 run (never reached: stage 2 short-circuits
because no primary keyword exists). -/
def c1_b2 : Nat → Except String String := fun _ => Except.ok ""

/-- Stage-3 backend for the C1 run: the inference call raises on every
attempt. -/
def c1_b3 : Nat → Except String String := fun _ => Except.error "boom"

/-- The witness document: all required fields present, every optional
field omitted. -/
def c6doc : JVal := JVal.obj
  [("audit_results", JVal.obj
      [("title_tag", JVal.str "Best Coffee Grinders 2024"),
       ("meta_description", JVal.str "A buyer guide"),
       ("primary_heading", JVal.str "Coffee Grinders"),
       ("content_summary", JVal.str "Reviews of grinders"),
       ("link_counts", JVal.obj [])]),
   ("target_keywords", JVal.obj
      [("primary_keyword", JVal.str "coffee grinder"),
       ("search_intent", JVal.str "transactional")])]

/-! ## Claim theorems -/

/-- `exBind` on a success. -/
theorem exBind_ok {α β : Type} (a : α) (f : α → Except String β) :
    exBind (Except.ok a) f = f a := rfl

/-- `exBind` on a failure. -/
theorem exBind_error {α β : Type} (e : String) (f : α → Except String β) :
    exBind (Except.error e) f = Except.error e := rfl


/-- Claim C2: if `pageAudit.targetKeywords.primaryKeyword` is absent or the
empty string when the SerpAnalyst node runs, the node makes no
adapter/inference call (zero calls to the wrapped function), returns
exactly `serp_analysis = ("error": "No primary keyword found")`, and the
merged state's `errors` list is unchanged (nothing is appended). -/
theorem c2_skip_short_circuit :
    ∀ (st : AgentState) (f : Nat → Except String JDict),
      (((st.page_audit.get "target_keywords").getD (JVal.obj [])).get "primary_keyword"
          = none ∨
       ((st.page_audit.get "target_keywords").getD (JVal.obj [])).get "primary_keyword"
          = some (JVal.str "")) →
      serp_analyst_node st f
        = ([("serp_analysis", JVal.obj [("error", JVal.str "No primary keyword found")])], 0)
        ∧ (applyUpdate st (serp_analyst_node st f).1).errors = st.errors := by
  intro st f h
  have hfalse : optTruthy
      (((st.page_audit.get "target_keywords").getD (JVal.obj [])).get "primary_keyword")
      = false := by
    rcases h with h | h <;> rw [h] <;> rfl
  have hnode : serp_analyst_node st f
      = ([("serp_analysis", JVal.obj [("error", JVal.str "No primary keyword found")])], 0) := by
    simp only [serp_analyst_node, hfalse]
    rfl
  exact ⟨hnode, by rw [hnode]; rfl⟩

/-- Witness for C2 at the fresh initial state (empty `page_audit`). -/
theorem c2_skip_short_circuit_witness :
    ((((initState "u").page_audit.get "target_keywords").getD (JVal.obj [])).get
        "primary_keyword" = none) ∧
    serp_analyst_node (initState "u") (fun _ => Except.ok ([] : JDict))
      = ([("serp_analysis", JVal.obj [("error", JVal.str "No primary keyword found")])], 0) ∧
    (applyUpdate (initState "u")
        (serp_analyst_node (initState "u") (fun _ => Except.ok ([] : JDict))).1).errors
      = (initState "u").errors := by
  have h := c2_skip_short_circuit (initState "u") (fun _ => Except.ok ([] : JDict))
    (Or.inl rfl)
  exact ⟨rfl, h.1, h.2⟩

/-- Claim C5: `run_with_retries` makes at most 3 calls; a raised exception
on the first attempt forces a second call; when all three attempts raise,
the wrapper returns the last exception after exactly 3 calls and the node
body converts that re-raised fault into a single errors entry tagged with
the node's name. -/
theorem c5_retry_bound :
    ∀ (tag : String) (f : Nat → Except String JDict),
      (run_with_retries f).2 ≤ 3 ∧
      (∀ e, f 0 = Except.error e → 2 ≤ (run_with_retries f).2) ∧
      (∀ e0 e1 e2, f 0 = Except.error e0 → f 1 = Except.error e1 →
        f 2 = Except.error e2 →
        run_with_retries f = (Except.error e2, 3) ∧
        node_step tag f
          = ([("errors", JVal.arr [JVal.str (tag ++ " Exception: " ++ e2)])], 3)) := by
  intro tag f
  refine ⟨?_, ?_, ?_⟩
  · unfold run_with_retries
    cases f 0 <;> cases f 1 <;> cases f 2 <;> simp
  · intro e h0
    unfold run_with_retries
    rw [h0]
    cases f 1 <;> cases f 2 <;> simp
  · intro e0 e1 e2 h0 h1 h2
    have hr : run_with_retries f = (Except.error e2, 3) := by
      unfold run_with_retries
      rw [h0, h1, h2]
    exact ⟨hr, by unfold node_step; rw [hr]⟩

/-- Witness for C5: three raising attempts, then the fault surfaces as a
tagged errors entry. -/
theorem c5_retry_bound_witness :
    run_with_retries c5f = (Except.error "boom", 3) ∧
    node_step "PageAuditor" c5f
      = ([("errors", JVal.arr [JVal.str "PageAuditor Exception: boom"])], 3) :=
  (c5_retry_bound "PageAuditor" c5f).2.2 "boom" "boom" "boom" rfl rfl rfl

/-- Claim C10: `LlmAgent.run` is a total function into dicts (it never
raises: in the embedding, every backend fault is consumed here), a raised
backend fault comes back as the dict `("error": str(e))`, and the retry
wrapper around `agent.run` therefore returns after exactly one call —
it never actually retries. -/
theorem c10_run_never_raises :
    ∀ (a : LlmAgent) (b : Except String String),
      run_with_retries (fun _ => Except.ok (a.run b)) = (Except.ok (a.run b), 1) ∧
      (∀ e, b = Except.error e → a.run b = [("error", JVal.str e)]) :=
  fun a b => ⟨rfl, fun e he => by rw [he]; rfl⟩

/-- Witness for C10 on a backend that raises. -/
theorem c10_run_never_raises_witness :
    run_with_retries
        (fun _ => Except.ok (optimization_advisor_agent.run (Except.error "down")))
      = (Except.ok (optimization_advisor_agent.run (Except.error "down")), 1) ∧
    optimization_advisor_agent.run (Except.error "down") = [("error", JVal.str "down")] :=
  ⟨(c10_run_never_raises optimization_advisor_agent (Except.error "down")).1,
   (c10_run_never_raises optimization_advisor_agent (Except.error "down")).2 "down" rfl⟩

/-- Claim C7: with a contract bound, a JSON-parse failure returns
`("error": "Failed to parse JSON", "raw_output": original text)` and a
schema-validation failure returns `("error": e, "raw_output": original
text)` — the raw model output is preserved unmodified in both cases. -/
theorem c7_raw_output_preserved :
    ∀ (a : LlmAgent) (v : JVal → Except String JDict) (t : String),
      a.output_schema = some v →
      (json_loads (cleaned_text t) = none →
        a.run (Except.ok t)
          = [("error", JVal.str "Failed to parse JSON"), ("raw_output", JVal.str t)]) ∧
      (∀ j e, json_loads (cleaned_text t) = some j → v j = Except.error e →
        a.run (Except.ok t) = [("error", JVal.str e), ("raw_output", JVal.str t)]) := by
  intro a v t hs
  constructor
  · intro hp
    simp only [LlmAgent.run, hs, hp]
  · intro j e hp hv
    simp only [LlmAgent.run, hs, hp, hv]

/-- Witness for C7: non-JSON model output through the page auditor's
contract. -/
theorem c7_raw_output_preserved_witness :
    page_auditor_agent.output_schema = some validate_page_audit ∧
    json_loads (cleaned_text "not json") = none ∧
    page_auditor_agent.run (Except.ok "not json")
      = [("error", JVal.str "Failed to parse JSON"), ("raw_output", JVal.str "not json")] :=
  ⟨rfl, rfl,
   (c7_raw_output_preserved page_auditor_agent validate_page_audit "not json" rfl).1 rfl⟩

/-- Counterexample to claim C8: the implementation's cleaning step removes
every occurrence of "```" anywhere in the text, not only surrounding fence
markers, so the content of the JSON document is altered before parsing.
On `c8bad` (which has no surrounding fences), spec-faithful stripping
leaves the document intact and parses `"a": "x```y"`, while the
implementation parses `"a": "xy"`; the run then validates the altered
document. -/
theorem c8_counterexample :
    strip_surrounding_fences c8bad = c8bad ∧
    json_loads (strip_surrounding_fences c8bad)
      = some (JVal.obj [("a", JVal.str "x```y")]) ∧
    cleaned_text c8bad ≠ strip_surrounding_fences c8bad ∧
    json_loads (cleaned_text c8bad) = some (JVal.obj [("a", JVal.str "xy")]) ∧
    page_auditor_agent.run (Except.ok c8bad)
      = [("error", JVal.str "Field required"), ("raw_output", JVal.str c8bad)] :=
  ⟨rfl, rfl, by decide, rfl, rfl⟩

/-- Claim C8 (amended): with a contract bound, validation is exactly
(a') remove every occurrence of the fence markers and trim, (b) parse the
remainder as JSON, (c) validate field-by-field; parse and validation
failures carry the raw text. -/
theorem c8_validation_pipeline :
    ∀ (a : LlmAgent) (v : JVal → Except String JDict) (t : String),
      a.output_schema = some v →
      a.run (Except.ok t) = validation_pipeline v a.output_key t := by
  intro a v t hs
  simp only [LlmAgent.run, validation_pipeline, hs]

/-- Witness for the amended C8 on the page auditor's contract. -/
theorem c8_validation_pipeline_witness :
    page_auditor_agent.output_schema = some validate_page_audit ∧
    page_auditor_agent.run (Except.ok c8bad)
      = validation_pipeline validate_page_audit (some "page_audit") c8bad :=
  ⟨rfl, c8_validation_pipeline page_auditor_agent validate_page_audit c8bad rfl⟩

set_option maxRecDepth 8000 in
/-- Counterexample to claim C9: on a data error the node's errors entry is
`"PageAuditor Error: " ++ result["error"]` — the raw offending output text
is kept only in the run result's `raw_output` field and does NOT occur in
the errors-list entry. -/
theorem c9_counterexample :
    (page_auditor_node_b (fun _ => Except.ok "oops not json")).1
      = [("errors", JVal.arr [JVal.str "PageAuditor Error: Failed to parse JSON"])] ∧
    page_auditor_agent.run (Except.ok "oops not json")
      = [("error", JVal.str "Failed to parse JSON"),
         ("raw_output", JVal.str "oops not json")] ∧
    strContains "PageAuditor Error: Failed to parse JSON" "oops not json" = false :=
  ⟨rfl, rfl, rfl⟩

/-- Claim C9 (amended): a data/validation error — the backend call
succeeded and its output either fails JSON parsing (`tools.py` lines
224-227) or is valid JSON that fails schema validation (`tools.py` lines
228-230) — is never retried: the wrapped call is made exactly once, and
the node records it immediately as a single errors entry tagged with the
node's name carrying the error description; the raw offending text is
preserved in the run result's `raw_output` field (not in the errors
entry). -/
theorem c9_data_error_not_retried :
    ∀ (b : Nat → Except String String) (t e : String),
      b 0 = Except.ok t →
      ((json_loads (cleaned_text t) = none ∧ e = "Failed to parse JSON") ∨
       (∃ j, json_loads (cleaned_text t) = some j ∧
          validate_page_audit j = Except.error e)) →
      page_auditor_agent.run (b 0)
        = [("error", JVal.str e), ("raw_output", JVal.str t)] ∧
      page_auditor_node_b b
        = ([("errors", JVal.arr [JVal.str ("PageAuditor Error: " ++ e)])], 1) := by
  intro b t e hb h
  have hrun : page_auditor_agent.run (b 0)
      = [("error", JVal.str e), ("raw_output", JVal.str t)] := by
    rw [hb]
    rcases h with ⟨hp, he⟩ | ⟨j, hp, hv⟩
    · rw [he]
      simp only [LlmAgent.run, page_auditor_agent, hp]
    · simp only [LlmAgent.run, page_auditor_agent, hp, hv]
  refine ⟨hrun, ?_⟩
  simp only [page_auditor_node_b, page_auditor_node, node_step, run_with_retries, hrun]
  rfl

/-- Witness for the amended C9, exercising the schema-validation branch:
the model output is the valid JSON document `()`, which fails the
page-audit contract (`audit_results` missing). -/
theorem c9_data_error_not_retried_witness :
    (fun (_ : Nat) => Except.ok (ε := String) "\x7b\x7d") 0 = Except.ok "\x7b\x7d" ∧
    json_loads (cleaned_text "\x7b\x7d") = some (JVal.obj []) ∧
    validate_page_audit (JVal.obj []) = Except.error "Field required" ∧
    page_auditor_agent.run (Except.ok "\x7b\x7d")
      = [("error", JVal.str "Field required"), ("raw_output", JVal.str "\x7b\x7d")] ∧
    page_auditor_node_b (fun _ => Except.ok "\x7b\x7d")
      = ([("errors", JVal.arr [JVal.str "PageAuditor Error: Field required"])], 1) := by
  have h := c9_data_error_not_retried (fun _ => Except.ok "\x7b\x7d") "\x7b\x7d"
    "Field required" rfl (Or.inr ⟨JVal.obj [], rfl, rfl⟩)
  exact ⟨rfl, rfl, rfl, h.1, h.2⟩

set_option maxRecDepth 8000 in
/-- Claim C1 evaluated at a failing run: `errors` is NOT append-only.  The
`Annotated` metadata `"Accumulate errors"` is a doc string, not a callable
reducer, so langgraph binds `errors` to a last-value channel; the stage-1
entry `"PageAuditor Error: Failed to parse JSON"` present after stage 1 is
overwritten when stage 3 fails, leaving only `"Advisor Error: boom"` in
the final state — contradicting the claim that an entry appended by an
earlier stage is still present after every later stage. -/
theorem c1_errors_overwritten :
    (applyUpdate (initState "https://example.com") (page_auditor_node_b c1_b1).1).errors
      = JVal.arr [JVal.str "PageAuditor Error: Failed to parse JSON"] ∧
    (runAudit "https://example.com" c1_b1 c1_b2 c1_b3).errors
      = JVal.arr [JVal.str "Advisor Error: boom"] :=
  ⟨rfl, rfl⟩

/-! ### Shape lemmas for node updates (used by C3 and C4) -/

/-- Every return of `LlmAgent.run` for an agent with an output key is
either the single-key success dict or an error dict headed by `"error"`. -/
theorem LlmAgent.run_forms (a : LlmAgent) (k : String) (hk : a.output_key = some k)
    (b : Except String String) :
    (∃ v, a.run b = [(k, v)]) ∨
    (∃ e rest, a.run b = ("error", JVal.str e) :: rest) := by
  cases b with
  | error e => exact Or.inr ⟨e, [], rfl⟩
  | ok t =>
    cases hs : a.output_schema with
    | none => exact Or.inl ⟨JVal.str t, by simp only [LlmAgent.run, hs, hk]⟩
    | some v =>
      cases hp : json_loads (cleaned_text t) with
      | none =>
        exact Or.inr ⟨"Failed to parse JSON", [("raw_output", JVal.str t)],
          by simp only [LlmAgent.run, hs, hp]⟩
      | some j =>
        cases hv : v j with
        | error e =>
          exact Or.inr ⟨e, [("raw_output", JVal.str t)],
            by simp only [LlmAgent.run, hs, hp, hv]⟩
        | ok dumped =>
          exact Or.inl ⟨JVal.obj dumped, by simp only [LlmAgent.run, hs, hp, hv, hk]⟩

/-- The update returned by a node body wrapping a bound agent is either the
agent's own single-key output or a single tagged errors entry. -/
theorem node_step_bound_forms (a : LlmAgent) (k : String) (hk : a.output_key = some k)
    (hke : (k = "error") = False) (tag : String) (b : Nat → Except String String) :
    (∃ v, (node_step tag (fun n => Except.ok (a.run (b n)))).1 = [(k, v)]) ∨
    (∃ s, (node_step tag (fun n => Except.ok (a.run (b n)))).1
        = [("errors", JVal.arr [JVal.str s])]) := by
  have hw : run_with_retries (fun n => Except.ok (a.run (b n)))
      = (Except.ok (a.run (b 0)), 1) := rfl
  rcases LlmAgent.run_forms a k hk (b 0) with ⟨v, hform⟩ | ⟨e, rest, hform⟩
  · refine Or.inl ⟨v, ?_⟩
    simp only [node_step, hw, hform, dictGet, hke, if_false]
  · refine Or.inr ⟨tag ++ " Error: " ++ e, ?_⟩
    simp only [node_step, hw, hform, dictGet, if_pos rfl]
    rfl

/-- The page-auditor node's update touches only `page_audit` or `errors`. -/
theorem page_auditor_node_b_forms (b : Nat → Except String String) :
    (∃ v, (page_auditor_node_b b).1 = [("page_audit", v)]) ∨
    (∃ s, (page_auditor_node_b b).1 = [("errors", JVal.arr [JVal.str s])]) :=
  node_step_bound_forms page_auditor_agent "page_audit" rfl (by simp) "PageAuditor" b

/-- The SERP-analyst node's update touches only `serp_analysis` or
`errors` (in the skip branch it is exactly the sentinel). -/
theorem serp_analyst_node_b_forms (st : AgentState) (b : Nat → Except String String) :
    (∃ v, (serp_analyst_node_b st b).1 = [("serp_analysis", v)]) ∨
    (∃ s, (serp_analyst_node_b st b).1 = [("errors", JVal.arr [JVal.str s])]) := by
  unfold serp_analyst_node_b serp_analyst_node
  cases h : optTruthy
      (((st.page_audit.get "target_keywords").getD (JVal.obj [])).get "primary_keyword") with
  | false =>
    exact Or.inl ⟨JVal.obj [("error", JVal.str "No primary keyword found")], by simp [h]⟩
  | true =>
    have := node_step_bound_forms serp_analyst_agent "serp_analysis" rfl (by simp)
      "SerpAnalyst" b
    simpa [h] using this

/-- The advisor node's update touches only `report` or `errors`. -/
theorem optimization_advisor_node_b_forms (b : Nat → Except String String) :
    (∃ v, (optimization_advisor_node_b b).1 = [("report", v)]) ∨
    (∃ s, (optimization_advisor_node_b b).1 = [("errors", JVal.arr [JVal.str s])]) :=
  node_step_bound_forms optimization_advisor_agent "report" rfl (by simp) "Advisor" b

/-- Merging an update that does not mention a channel leaves it unchanged:
`url`. -/
theorem applyUpdate_url (st : AgentState) (u : JDict) (h : dictGet u "url" = none) :
    (applyUpdate st u).url = st.url := by
  simp only [applyUpdate, h, Option.getD]

/-- Merging an update that does not mention `page_audit` leaves it
unchanged. -/
theorem applyUpdate_page_audit (st : AgentState) (u : JDict)
    (h : dictGet u "page_audit" = none) :
    (applyUpdate st u).page_audit = st.page_audit := by
  simp only [applyUpdate, h, Option.getD]

/-- Merging an update that does not mention `serp_analysis` leaves it
unchanged. -/
theorem applyUpdate_serp_analysis (st : AgentState) (u : JDict)
    (h : dictGet u "serp_analysis" = none) :
    (applyUpdate st u).serp_analysis = st.serp_analysis := by
  simp only [applyUpdate, h, Option.getD]

/-- Merging an update that does not mention `report` leaves it unchanged. -/
theorem applyUpdate_report (st : AgentState) (u : JDict)
    (h : dictGet u "report" = none) :
    (applyUpdate st u).report = st.report := by
  simp only [applyUpdate, h, Option.getD]

/-- A single-key dict has no other key. -/
theorem dictGet_single (k k' : String) (v : JVal) (h : (k = k') = False) :
    dictGet [(k, v)] k' = none := by
  simp only [dictGet, h, if_false]

/-- Claim C3: for every run — whatever each stage's backend does, raising
included — the engine is the fixed sequential composition page_auditor →
serp_analyst → optimization_advisor (first conjunct, the definitional
transition order to the terminal state), it is total by construction, and
the returned state's `url` equals the input url (no node's update ever
carries the `url` key). -/
theorem c3_pipeline_terminal_url :
    ∀ (url : String) (b1 b2 b3 : Nat → Except String String),
      runAudit url b1 b2 b3 =
        applyUpdate
          (applyUpdate (applyUpdate (initState url) (page_auditor_node_b b1).1)
            (serp_analyst_node_b
              (applyUpdate (initState url) (page_auditor_node_b b1).1) b2).1)
          (optimization_advisor_node_b b3).1 ∧
      (runAudit url b1 b2 b3).url = JVal.str url := by
  intro url b1 b2 b3
  refine ⟨rfl, ?_⟩
  have hu1 : dictGet (page_auditor_node_b b1).1 "url" = none := by
    rcases page_auditor_node_b_forms b1 with ⟨v, h⟩ | ⟨s, h⟩ <;> rw [h] <;> rfl
  have hu2 : ∀ st, dictGet (serp_analyst_node_b st b2).1 "url" = none := by
    intro st
    rcases serp_analyst_node_b_forms st b2 with ⟨v, h⟩ | ⟨s, h⟩ <;> rw [h] <;> rfl
  have hu3 : dictGet (optimization_advisor_node_b b3).1 "url" = none := by
    rcases optimization_advisor_node_b_forms b3 with ⟨v, h⟩ | ⟨s, h⟩ <;> rw [h] <;> rfl
  show (applyUpdate
      (applyUpdate (applyUpdate (initState url) (page_auditor_node_b b1).1)
        (serp_analyst_node_b
          (applyUpdate (initState url) (page_auditor_node_b b1).1) b2).1)
      (optimization_advisor_node_b b3).1).url = JVal.str url
  rw [applyUpdate_url _ _ hu3, applyUpdate_url _ _ (hu2 _), applyUpdate_url _ _ hu1]
  rfl

/-- Claim C4: each bound node's update contains only its own primary
output key (on success) or a single errors entry (on failure), and merging
it leaves every other stage's field — and `url` — unchanged in value. -/
theorem c4_additive_merge :
    ∀ (st : AgentState) (b1 b2 b3 : Nat → Except String String),
      (((∃ v, (page_auditor_node_b b1).1 = [("page_audit", v)]) ∨
        (∃ s, (page_auditor_node_b b1).1 = [("errors", JVal.arr [JVal.str s])])) ∧
       (applyUpdate st (page_auditor_node_b b1).1).url = st.url ∧
       (applyUpdate st (page_auditor_node_b b1).1).serp_analysis = st.serp_analysis ∧
       (applyUpdate st (page_auditor_node_b b1).1).report = st.report) ∧
      (((∃ v, (serp_analyst_node_b st b2).1 = [("serp_analysis", v)]) ∨
        (∃ s, (serp_analyst_node_b st b2).1 = [("errors", JVal.arr [JVal.str s])])) ∧
       (applyUpdate st (serp_analyst_node_b st b2).1).url = st.url ∧
       (applyUpdate st (serp_analyst_node_b st b2).1).page_audit = st.page_audit ∧
       (applyUpdate st (serp_analyst_node_b st b2).1).report = st.report) ∧
      (((∃ v, (optimization_advisor_node_b b3).1 = [("report", v)]) ∨
        (∃ s, (optimization_advisor_node_b b3).1 = [("errors", JVal.arr [JVal.str s])])) ∧
       (applyUpdate st (optimization_advisor_node_b b3).1).url = st.url ∧
       (applyUpdate st (optimization_advisor_node_b b3).1).page_audit = st.page_audit ∧
       (applyUpdate st (optimization_advisor_node_b b3).1).serp_analysis
         = st.serp_analysis) := by
  intro st b1 b2 b3
  refine ⟨⟨page_auditor_node_b_forms b1, ?_, ?_, ?_⟩,
          ⟨serp_analyst_node_b_forms st b2, ?_, ?_, ?_⟩,
          ⟨optimization_advisor_node_b_forms b3, ?_, ?_, ?_⟩⟩ <;>
    first
      | (rcases page_auditor_node_b_forms b1 with ⟨v, h⟩ | ⟨s, h⟩ <;> rw [h] <;> rfl)
      | (rcases serp_analyst_node_b_forms st b2 with ⟨v, h⟩ | ⟨s, h⟩ <;> rw [h] <;> rfl)
      | (rcases optimization_advisor_node_b_forms b3 with ⟨v, h⟩ | ⟨s, h⟩ <;> rw [h] <;> rfl)

theorem vReqStr_of_wf {o : Option JVal} (h : wfReqStr o = true) :
    ∃ s, o = some (JVal.str s) ∧ vReqStr o = Except.ok s := by
  cases o with
  | none => exact absurd h (by simp [wfReqStr])
  | some v =>
    cases v <;> simp [wfReqStr] at h
    exact ⟨_, rfl, rfl⟩

theorem vOptInt_of_wf {o : Option JVal} (h : wfOptInt o = true) :
    ∃ x, vOptInt o = Except.ok x ∧ (o = none → x = none) := by
  cases o with
  | none => exact ⟨none, rfl, fun _ => rfl⟩
  | some v =>
    cases v <;> simp [wfOptInt] at h <;> exact ⟨_, rfl, by intro hc; cases hc⟩

theorem vOptStr_of_wf {o : Option JVal} (h : wfOptStr o = true) :
    ∃ x, vOptStr o = Except.ok x ∧ (o = none → x = none) := by
  cases o with
  | none => exact ⟨none, rfl, fun _ => rfl⟩
  | some v =>
    cases v <;> simp [wfOptStr] at h <;> exact ⟨_, rfl, by intro hc; cases hc⟩

theorem vStrElems_of_all {xs : List JVal} (h : xs.all isStrV = true) :
    ∃ ys, vStrElems xs = Except.ok ys := by
  induction xs with
  | nil => exact ⟨[], rfl⟩
  | cons x rest ih =>
    rw [List.all_cons, Bool.and_eq_true] at h
    obtain ⟨ys, hys⟩ := ih h.2
    have hx : ∃ s, x = JVal.str s := by
      have h1 := h.1
      cases x <;> simp [isStrV] at h1 ⊢
    obtain ⟨s, rfl⟩ := hx
    exact ⟨s :: ys, by simp [vStrElems, vStrElem, hys, exBind_ok]⟩

theorem vStrList_of_wf {o : Option JVal} (h : wfStrList o = true) :
    ∃ ys, vStrList o = Except.ok ys ∧ (o = none → ys = []) := by
  cases o with
  | none => exact ⟨[], rfl, fun _ => rfl⟩
  | some v =>
    cases v <;> simp [wfStrList] at h
    obtain ⟨ys, hys⟩ := vStrElems_of_all (by simpa using h)
    exact ⟨ys, by simpa [vStrList] using hys, by intro hc; cases hc⟩

theorem validateHeadingItem_of_wf {j : JVal} (h : wfHeadingItem j = true) :
    ∃ x, validateHeadingItem j = Except.ok x := by
  cases j with
  | obj d =>
    rw [wfHeadingItem, Bool.and_eq_true] at h
    obtain ⟨t1, _, hv1⟩ := vReqStr_of_wf h.1
    obtain ⟨t2, _, hv2⟩ := vReqStr_of_wf h.2
    exact ⟨{ tag := t1, text := t2 }, by simp [validateHeadingItem, hv1, hv2, exBind_ok]⟩
  | _ => exact absurd h (by simp [wfHeadingItem])

theorem vHeadingElems_of_all {xs : List JVal} (h : xs.all wfHeadingItem = true) :
    ∃ ys, vHeadingElems xs = Except.ok ys := by
  induction xs with
  | nil => exact ⟨[], rfl⟩
  | cons x rest ih =>
    rw [List.all_cons, Bool.and_eq_true] at h
    obtain ⟨ys, hys⟩ := ih h.2
    obtain ⟨y, hy⟩ := validateHeadingItem_of_wf h.1
    exact ⟨y :: ys, by simp [vHeadingElems, hy, hys, exBind_ok]⟩

theorem vHeadingList_of_wf {o : Option JVal} (h : wfHeadingList o = true) :
    ∃ ys, vHeadingList o = Except.ok ys ∧ (o = none → ys = []) := by
  cases o with
  | none => exact ⟨[], rfl, fun _ => rfl⟩
  | some v =>
    cases v <;> simp [wfHeadingList] at h
    obtain ⟨ys, hys⟩ := vHeadingElems_of_all (by simpa using h)
    exact ⟨ys, by simpa [vHeadingList] using hys, by intro hc; cases hc⟩

theorem validateLinkCounts_of_wf {j : JVal} (h : wfLinkCounts j = true) :
    ∃ lc, validateLinkCounts j = Except.ok lc ∧ lc_defaults j lc := by
  cases j with
  | obj d =>
    rw [wfLinkCounts, Bool.and_eq_true, Bool.and_eq_true, Bool.and_eq_true] at h
    obtain ⟨⟨⟨h1, h2⟩, h3⟩, h4⟩ := h
    obtain ⟨x1, hv1, hd1⟩ := vOptInt_of_wf h1
    obtain ⟨x2, hv2, hd2⟩ := vOptInt_of_wf h2
    obtain ⟨x3, hv3, hd3⟩ := vOptInt_of_wf h3
    obtain ⟨x4, hv4, hd4⟩ := vOptStr_of_wf h4
    refine ⟨{ internal := x1, external := x2, broken := x3, notes := x4 }, ?_, ?_⟩
    · simp [validateLinkCounts, hv1, hv2, hv3, hv4, exBind_ok]
    · exact ⟨fun hc => hd1 hc, fun hc => hd2 hc, fun hc => hd3 hc, fun hc => hd4 hc⟩
  | _ => exact absurd h (by simp [wfLinkCounts])

theorem validateAuditResults_of_wf {j : JVal} (h : wfAuditResults j = true) :
    ∃ a, validateAuditResults j = Except.ok a ∧ audit_contract j a := by
  cases j with
  | obj d =>
    rw [wfAuditResults] at h
    simp only [Bool.and_eq_true] at h
    obtain ⟨⟨⟨⟨⟨⟨⟨⟨h1, h2⟩, h3⟩, h4⟩, h5⟩, h6⟩, h7⟩, h8⟩, h9⟩ := h
    obtain ⟨s1, he1, hv1⟩ := vReqStr_of_wf h1
    obtain ⟨s2, he2, hv2⟩ := vReqStr_of_wf h2
    obtain ⟨s3, he3, hv3⟩ := vReqStr_of_wf h3
    obtain ⟨sh, hvh, hdh⟩ := vHeadingList_of_wf h4
    obtain ⟨wc, hvw, hdw⟩ := vOptInt_of_wf h5
    obtain ⟨s4, he4, hv4⟩ := vReqStr_of_wf h6
    have hlc : ∃ jl, dictGet d "link_counts" = some jl ∧ wfLinkCounts jl = true := by
      cases hgl : dictGet d "link_counts" with
      | none => rw [hgl] at h7; exact absurd h7 (by simp)
      | some jl => rw [hgl] at h7; exact ⟨jl, rfl, h7⟩
    obtain ⟨jl, hjl, hwl⟩ := hlc
    obtain ⟨lc, hvl, hdl⟩ := validateLinkCounts_of_wf hwl
    obtain ⟨tf, hvt, hdt⟩ := vStrList_of_wf h8
    obtain ⟨co, hvc, hdc⟩ := vStrList_of_wf h9
    refine ⟨{ title_tag := s1, meta_description := s2, primary_heading := s3,
              secondary_headings := sh, word_count := wc, content_summary := s4,
              link_counts := lc, technical_findings := tf,
              content_opportunities := co }, ?_, ?_⟩
    · simp [validateAuditResults, hv1, hv2, hv3, hvh, hvw, hv4, hjl, hvl, hvt, hvc,
        exBind_ok]
    · exact ⟨he1, he2, he3, he4, ⟨jl, hjl, hdl⟩, fun hc => hdh hc, fun hc => hdw hc,
        fun hc => hdt hc, fun hc => hdc hc⟩
  | _ => exact absurd h (by simp [wfAuditResults])

theorem validateTargetKeywords_of_wf {j : JVal} (h : wfTargetKeywords j = true) :
    ∃ t, validateTargetKeywords j = Except.ok t ∧ tk_contract j t := by
  cases j with
  | obj d =>
    rw [wfTargetKeywords] at h
    simp only [Bool.and_eq_true] at h
    obtain ⟨⟨⟨h1, h2⟩, h3⟩, h4⟩ := h
    obtain ⟨s1, he1, hv1⟩ := vReqStr_of_wf h1
    obtain ⟨sk, hvk, hdk⟩ := vStrList_of_wf h2
    obtain ⟨s2, he2, hv2⟩ := vReqStr_of_wf h3
    obtain ⟨st, hvs, hds⟩ := vStrList_of_wf h4
    refine ⟨{ primary_keyword := s1, secondary_keywords := sk, search_intent := s2,
              supporting_topics := st }, ?_, ?_⟩
    · simp [validateTargetKeywords, hv1, hvk, hv2, hvs, exBind_ok]
    · exact ⟨he1, he2, fun hc => hdk hc, fun hc => hds hc⟩
  | _ => exact absurd h (by simp [wfTargetKeywords])

/-- Claim C6: every JSON document satisfying the page-audit contract
validates successfully into a record that keeps every required field's
value from the document and defaults every omitted optional field (empty
list / None) — no required-field data is lost. -/
theorem c6_schema_no_data_loss :
    ∀ j : JVal, wfPageAuditOutput j = true →
      ∃ r, validatePageAuditOutput j = Except.ok r ∧ pageaudit_contract j r := by
  intro j h
  cases j with
  | obj d =>
    rw [wfPageAuditOutput, Bool.and_eq_true] at h
    obtain ⟨ha, ht⟩ := h
    have hja : ∃ ja, dictGet d "audit_results" = some ja ∧ wfAuditResults ja = true := by
      cases hg : dictGet d "audit_results" with
      | none => rw [hg] at ha; exact absurd ha (by simp)
      | some ja => rw [hg] at ha; exact ⟨ja, rfl, ha⟩
    have hjt : ∃ jt, dictGet d "target_keywords" = some jt ∧ wfTargetKeywords jt = true := by
      cases hg : dictGet d "target_keywords" with
      | none => rw [hg] at ht; exact absurd ht (by simp)
      | some jt => rw [hg] at ht; exact ⟨jt, rfl, ht⟩
    obtain ⟨ja, hga, hwa⟩ := hja
    obtain ⟨jt, hgt, hwt⟩ := hjt
    obtain ⟨a, hva, hca⟩ := validateAuditResults_of_wf hwa
    obtain ⟨t, hvt, hct⟩ := validateTargetKeywords_of_wf hwt
    refine ⟨{ audit_results := a, target_keywords := t }, ?_, ?_⟩
    · simp [validatePageAuditOutput, hga, hgt, hva, hvt, exBind_ok]
    · exact ⟨⟨ja, hga, hca⟩, ⟨jt, hgt, hct⟩⟩
  | _ => exact absurd h (by simp [wfPageAuditOutput])

/-- Witness for C6 on a document with every optional field omitted. -/
theorem c6_schema_no_data_loss_witness :
    wfPageAuditOutput c6doc = true ∧
    (∃ r, validatePageAuditOutput c6doc = Except.ok r ∧ pageaudit_contract c6doc r) :=
  ⟨rfl, c6_schema_no_data_loss c6doc rfl⟩
